import Mathlib

/-!
Verification of the PromoWeb order/inventory/payment core.

Shallow embedding of:
  src/backend/app/models/product.py   (class Inventory)
  src/backend/app/models/order.py     (Order.change_status, Order.reserve_inventory,
                                       Order.fulfill_inventory, order_status_changed listener)
  src/backend/app/services/order.py   (OrderService.update_order_status,
                                       OrderService._is_valid_status_transition)
  src/backend/app/services/payment.py (PaymentService.calculate_partial_payment)
  src/backend/app/api/v1/endpoints/orders.py   (checkout_cart deposit split, cancel_order)
  src/backend/app/api/v1/endpoints/payments.py (create_payment, confirm_payment,
                                       update_order_payment_status, orange_money_webhook)

Python ints are modelled as Int, Decimal amounts as Rat, ORM rows as structures,
the per-product inventory table as a function from product id to Inventory.
-/

namespace PromoWeb

/-- One inventory row (models/product.py, class Inventory): physical stock and
the quantity reserved against unconfirmed orders. -/
structure Inventory where
  quantity : Int
  reserved_quantity : Int
deriving DecidableEq, Repr

/-- models/product.py, Inventory.available_quantity: max(0, quantity - reserved_quantity). -/
def Inventory.available_quantity (inv : Inventory) : Int :=
  max 0 (inv.quantity - inv.reserved_quantity)

/-- models/product.py, Inventory.can_reserve: available_quantity >= quantity. -/
def Inventory.can_reserve (inv : Inventory) (q : Int) : Bool :=
  inv.available_quantity ≥ q

/-- models/product.py, Inventory.reserve: if can_reserve, add to reserved_quantity
and return True, else leave the row unchanged and return False. -/
def Inventory.reserve (inv : Inventory) (q : Int) : Inventory × Bool :=
  if inv.can_reserve q then
    ({ inv with reserved_quantity := inv.reserved_quantity + q }, true)
  else (inv, false)

/-- models/product.py, Inventory.release_reservation: reserved_quantity = max(0, reserved - q). -/
def Inventory.release_reservation (inv : Inventory) (q : Int) : Inventory :=
  { inv with reserved_quantity := max 0 (inv.reserved_quantity - q) }

/-- models/product.py, Inventory.reduce_stock: if quantity >= q subtract it and
return True, else leave the row unchanged and return False. The reserved counter
is not consulted. -/
def Inventory.reduce_stock (inv : Inventory) (q : Int) : Inventory × Bool :=
  if inv.quantity ≥ q then ({ inv with quantity := inv.quantity - q }, true)
  else (inv, false)

/-- models/product.py, Inventory.add_stock. -/
def Inventory.add_stock (inv : Inventory) (q : Int) : Inventory :=
  { inv with quantity := inv.quantity + q }

/-- services/order.py, _validate_cart_items followed by _reserve_inventory, restricted
to one inventory row: the service refuses when the requested quantity exceeds
available_quantity, otherwise it increments reserved_quantity directly. -/
def Inventory.reserveValidated (inv : Inventory) (q : Int) : Inventory × Bool :=
  if q > inv.available_quantity then (inv, false)
  else ({ inv with reserved_quantity := inv.reserved_quantity + q }, true)

/-- The spec invariant on one inventory row: 0 <= reserved_quantity <= quantity. -/
def inventoryInvariant (inv : Inventory) : Prop :=
  0 ≤ inv.reserved_quantity ∧ inv.reserved_quantity ≤ inv.quantity

instance (inv : Inventory) : Decidable (inventoryInvariant inv) := by
  unfold inventoryInvariant; infer_instance

/-- One operation on a single inventory row, as invoked by the code paths named in
the inventory claims. fulfillItem is the per-item step of Order.fulfill_inventory:
release_reservation immediately followed by reduce_stock for the same quantity. -/
inductive InvOp
  | reserve (q : Int)
  | release (q : Int)
  | reduceStock (q : Int)
  | addStock (q : Int)
  | reserveValidated (q : Int)
  | fulfillItem (q : Int)
deriving DecidableEq, Repr

/-- The quantity argument carried by an inventory operation. -/
def InvOp.qty : InvOp → Int
  | .reserve q => q
  | .release q => q
  | .reduceStock q => q
  | .addStock q => q
  | .reserveValidated q => q
  | .fulfillItem q => q

/-- Apply one inventory operation to a row (results of the boolean-returning
operations are ignored, as at the call sites under study). -/
def applyInvOp (inv : Inventory) : InvOp → Inventory
  | .reserve q => (inv.reserve q).1
  | .release q => inv.release_reservation q
  | .reduceStock q => (inv.reduce_stock q).1
  | .addStock q => inv.add_stock q
  | .reserveValidated q => (inv.reserveValidated q).1
  | .fulfillItem q => ((inv.release_reservation q).reduce_stock q).1

/-- Apply a sequence of inventory operations in order. -/
def applyInvOps (inv : Inventory) (ops : List InvOp) : Inventory :=
  ops.foldl applyInvOp inv

/-- One order line (models/order.py, class OrderItem): the product and the quantity. -/
structure Item where
  product_id : Nat
  quantity : Int
deriving DecidableEq, Repr

/-- Point update of the per-product inventory table. -/
def setInv (m : Nat → Inventory) (pid : Nat) (v : Inventory) : Nat → Inventory :=
  fun n => if n = pid then v else m n

/-- models/order.py, Order._release_inventory_reservations: release each item's
quantity on its product's inventory row. -/
def releaseReservations (m : Nat → Inventory) (items : List Item) : Nat → Inventory :=
  items.foldl (fun m it => setInv m it.product_id ((m it.product_id).release_reservation it.quantity)) m

/-- Loop body of models/order.py, Order.reserve_inventory: reserve item by item;
on the first failure call _release_inventory_reservations on the FULL item list
(allItems) and return False. -/
def reserveInventoryAux (allItems : List Item) : (Nat → Inventory) → List Item → (Nat → Inventory) × Bool
  | m, [] => (m, true)
  | m, it :: rest =>
    let r := (m it.product_id).reserve it.quantity
    if r.2 then reserveInventoryAux allItems (setInv m it.product_id r.1) rest
    else (releaseReservations m allItems, false)

/-- models/order.py, Order.reserve_inventory. -/
def reserveInventory (m : Nat → Inventory) (items : List Item) : (Nat → Inventory) × Bool :=
  reserveInventoryAux items m items

/-- models/order.py, Order.fulfill_inventory: per item release the reservation then
reduce stock; stop and return False when reduce_stock fails (the release of the
failing item is kept, its stock is not reduced). -/
def fulfillInventory : (Nat → Inventory) → List Item → (Nat → Inventory) × Bool
  | m, [] => (m, true)
  | m, it :: rest =>
    let released := (m it.product_id).release_reservation it.quantity
    let r := released.reduce_stock it.quantity
    if r.2 then fulfillInventory (setInv m it.product_id r.1) rest
    else (setInv m it.product_id r.1, false)

/-- Order status values (models/order.py, order_status_enum). -/
inductive OStatus
  | pending | partially_paid | processing | shipped | in_transit | delivered
  | delivery_failed | paid_full | completed | cancelled | returned | refunded
deriving DecidableEq, Repr

/-- Payment status values (models/payment.py, payment_status_enum). -/
inductive PStatus
  | initiated | processing | pending | success | failed | expired | refunded
deriving DecidableEq, Repr

/-- Payment gateways (services/payment.py, PaymentGateway). -/
inductive Gateway
  | stripe | orange_money | mtn_mobile_money | cash_on_delivery
deriving DecidableEq, Repr

/-- One payment attempt for an order (models/payment.py, class Payment; only the
columns the claims read). -/
structure Pay where
  amount : Rat
  status : PStatus
  gateway : Gateway
  gateway_payment_id : Nat
deriving DecidableEq, Repr

/-- One order (models/order.py, class Order; the columns the claims read), with its
items, payments and status history rows (previous_status, new_status). -/
structure OrderW where
  status : OStatus
  total_amount : Rat
  deposit_amount : Rat
  items : List Item
  payments : List Pay
  history : List (OStatus × OStatus)
deriving DecidableEq, Repr

/-- models/order.py, Order.can_be_cancelled: status in pending, partially_paid, processing. -/
def OrderW.can_be_cancelled (o : OrderW) : Bool :=
  o.status = OStatus.pending ∨ o.status = OStatus.partially_paid ∨ o.status = OStatus.processing

/-- models/order.py, Order.get_total_paid: sum of amounts of payments in status success. -/
def OrderW.get_total_paid (o : OrderW) : Rat :=
  o.payments.foldl (fun acc p => if p.status = PStatus.success then acc + p.amount else acc) 0

/-- models/order.py, Order.get_remaining_balance: total_amount - get_total_paid. -/
def OrderW.get_remaining_balance (o : OrderW) : Rat :=
  o.total_amount - o.get_total_paid

/-- An order together with the inventory table it acts on. -/
structure World where
  order : OrderW
  inv : Nat → Inventory

/-- Assignment to Order.status including the SQLAlchemy listener
order_status_changed (models/order.py, bottom): when the value changes,
pending -> partially_paid runs Order.reserve_inventory, partially_paid/processing
-> shipped runs Order.fulfill_inventory, and any change to cancelled runs
Order._release_inventory_reservations. -/
def World.set_status (w : World) (v : OStatus) : World :=
  if w.order.status = v then
    { w with order := { w.order with status := v } }
  else if v = OStatus.partially_paid ∧ w.order.status = OStatus.pending then
    { order := { w.order with status := v }, inv := (reserveInventory w.inv w.order.items).1 }
  else if v = OStatus.shipped ∧ (w.order.status = OStatus.partially_paid ∨ w.order.status = OStatus.processing) then
    { order := { w.order with status := v }, inv := (fulfillInventory w.inv w.order.items).1 }
  else if v = OStatus.cancelled then
    { order := { w.order with status := v }, inv := releaseReservations w.inv w.order.items }
  else
    { w with order := { w.order with status := v } }

/-- models/order.py, Order.change_status: assign the status (which fires the
listener above) and unconditionally append a history row (old, new). -/
def World.change_status (w : World) (v : OStatus) : World :=
  { w.set_status v with
    order := { (w.set_status v).order with
               history := (w.set_status v).order.history ++ [(w.order.status, v)] } }

/-- Replace payment number i of the order. -/
def setPayment (o : OrderW) (i : Nat) (p : Pay) : OrderW :=
  { o with payments := o.payments.set i p }

/-- endpoints/payments.py, update_order_payment_status: if total paid covers the
deposit and the order is pending, change status to partially_paid; elif total paid
covers the total, change status to paid_full. -/
def update_order_payment_status (w : World) : World :=
  let tp := w.order.get_total_paid
  if tp ≥ w.order.deposit_amount ∧ w.order.status = OStatus.pending then
    w.change_status OStatus.partially_paid
  else if tp ≥ w.order.total_amount then
    w.change_status OStatus.paid_full
  else w

/-- endpoints/payments.py, confirm_payment_gateway: True exactly for the two
mobile-money gateways. -/
def confirm_payment_gateway (p : Pay) : Bool :=
  p.gateway = Gateway.orange_money ∨ p.gateway = Gateway.mtn_mobile_money

/-- endpoints/payments.py, confirm_payment: require the payment to exist and be
pending; on gateway confirmation mark it success and run
update_order_payment_status; otherwise mark it failed and report failure. -/
def confirm_payment (w : World) (i : Nat) : World × Bool :=
  match w.order.payments[i]? with
  | none => (w, false)
  | some p =>
    if p.status ≠ PStatus.pending then (w, false)
    else if confirm_payment_gateway p then
      let w1 : World := { w with order := setPayment w.order i { p with status := PStatus.success } }
      (update_order_payment_status w1, true)
    else
      ({ w with order := setPayment w.order i { p with status := PStatus.failed } }, false)

/-- endpoints/payments.py, orange_money_webhook: look the payment up by its gateway
transaction id and set its status to success when the payload status is the string
success, failed otherwise; the order itself is not touched. -/
def orange_money_webhook (w : World) (tid : Nat) (payloadStatus : String) : World :=
  match w.order.payments.findIdx? (fun p => p.gateway_payment_id == tid) with
  | none => w
  | some i =>
    match w.order.payments[i]? with
    | none => w
    | some p =>
      let ns := if payloadStatus = "success" then PStatus.success else PStatus.failed
      { w with order := setPayment w.order i { p with status := ns } }

/-- endpoints/orders.py, cancel_order: refuse unless Order.can_be_cancelled; else
Order.change_status to cancelled (whose listener already releases the reservations)
and then release every item's reservation a second time, explicitly. -/
def cancel_order (w : World) : World × Bool :=
  if w.order.can_be_cancelled then
    let w1 := w.change_status OStatus.cancelled
    let w2 : World := { w1 with inv := releaseReservations w1.inv w1.order.items }
    (w2, true)
  else (w, false)

/-- Order status values of the service layer (services/order.py, OrderStatus),
a distinct enumeration from the model's. -/
inductive SStatus
  | pending | confirmed | paidPartial | paidFull | processing
  | shipped | delivered | cancelled | refunded
deriving DecidableEq, Repr, Fintype

/-- services/order.py, the allowed_transitions table of _is_valid_status_transition. -/
def allowedTransitions : SStatus → List SStatus
  | .pending => [.confirmed, .cancelled]
  | .confirmed => [.paidPartial, .paidFull, .cancelled]
  | .paidPartial => [.paidFull, .processing, .cancelled]
  | .paidFull => [.processing, .cancelled]
  | .processing => [.shipped, .cancelled]
  | .shipped => [.delivered]
  | .delivered => [.refunded]
  | .cancelled => []
  | .refunded => []

/-- services/order.py, OrderService._is_valid_status_transition. -/
def isValidStatusTransition (cur new : SStatus) : Bool :=
  new ∈ allowedTransitions cur

/-- Service view of an order: status, items and the history rows it appends
(each row records the new status). -/
structure SOrder where
  status : SStatus
  items : List Item
  history : List SStatus

/-- Service order plus the inventory table. -/
structure SWorld where
  order : SOrder
  inv : Nat → Inventory

/-- services/order.py, OrderService.update_order_status: reject the call when the
transition is not in the table (no history row); otherwise set the status, release
the reserved inventory when the new status is cancelled, and append one history row. -/
def service_update_order_status (w : SWorld) (ns : SStatus) : SWorld × Bool :=
  if isValidStatusTransition w.order.status ns then
    let inv1 := if ns = SStatus.cancelled then releaseReservations w.inv w.order.items else w.inv
    ({ order := { w.order with status := ns, history := w.order.history ++ [ns] }, inv := inv1 }, true)
  else (w, false)

/-- The payment creation request of endpoints/payments.py, create_payment (POST /). -/
structure PaymentCreateRequest where
  amount : Rat
  gateway : Gateway
  customer_phone : Option String
deriving DecidableEq, Repr

/-- A persisted row of the payments table as created by the endpoint (the status
column defaults to initiated, models/payment.py). -/
structure PaymentRow where
  gateway : Gateway
  amount : Rat
  customer_phone : Option String
  status : PStatus
deriving DecidableEq, Repr

/-- Outcome of the create_payment endpoint. -/
inductive CreatePaymentOutcome
  | orderNotPayable
  | amountExceedsBalance
  | missingPhone
  | intent
deriving DecidableEq, Repr

/-- endpoints/payments.py, create_payment (POST /): reject cancelled/refunded/completed
orders and amounts over the remaining balance; otherwise persist the Payment row
(db.commit) and only then dispatch to the gateway helper, whose mobile-money
branches raise the missing-phone error after the row is already committed
(cash on delivery further sets the fresh row to pending). -/
def create_payment (o : OrderW) (db : List PaymentRow) (req : PaymentCreateRequest) :
    List PaymentRow × CreatePaymentOutcome :=
  if o.status = OStatus.cancelled ∨ o.status = OStatus.refunded ∨ o.status = OStatus.completed then
    (db, CreatePaymentOutcome.orderNotPayable)
  else if req.amount > o.get_remaining_balance then (db, CreatePaymentOutcome.amountExceedsBalance)
  else
    let row : PaymentRow :=
      { gateway := req.gateway, amount := req.amount,
        customer_phone := req.customer_phone, status := PStatus.initiated }
    match req.gateway with
    | Gateway.orange_money =>
      if req.customer_phone = none then (db ++ [row], CreatePaymentOutcome.missingPhone)
      else (db ++ [row], CreatePaymentOutcome.intent)
    | Gateway.mtn_mobile_money =>
      if req.customer_phone = none then (db ++ [row], CreatePaymentOutcome.missingPhone)
      else (db ++ [row], CreatePaymentOutcome.intent)
    | Gateway.stripe => (db ++ [row], CreatePaymentOutcome.intent)
    | Gateway.cash_on_delivery =>
      (db ++ [{ row with status := PStatus.pending }], CreatePaymentOutcome.intent)

/-- Python int() on an exact decimal: truncation toward zero. -/
def pyTrunc (q : Rat) : Int :=
  if q < 0 then -(⌊-q⌋) else ⌊q⌋

/-- services/payment.py, PaymentService.calculate_partial_payment: the 30 percent
down payment truncated to a multiple of 100 XAF, the remaining balance recomputed
by subtraction from the order amount. Returns (down_payment, remaining_balance). -/
def calculate_partial_payment (order_amount : Rat) : Rat × Rat :=
  let dp0 := order_amount * (30 / 100)
  let dp : Rat := ((pyTrunc (dp0 / 100)) * 100 : Int)
  (dp, order_amount - dp)

/-- endpoints/orders.py, checkout_cart deposit split: deposit_amount =
total * percentage / 100 and remaining_amount = total - deposit_amount. -/
def checkout_deposit_split (total : Rat) (pct : Rat) : Rat × Rat :=
  let d := total * pct / 100
  (d, total - d)

/-- Whether an inventory operation is a bare reduce_stock call. -/
def InvOp.isBareReduceStock : InvOp → Bool
  | .reduceStock _ => true
  | _ => false

/-- Total quantity the item list orders for one product (for reasoning about the
per-product effect of the reservation rollback). -/
def sumQ : List Item → Nat → Int
  | [], _ => 0
  | it :: rest, p => (if it.product_id = p then it.quantity else 0) + sumQ rest p

theorem set_status_order (w : World) (v : OStatus) :
    (w.set_status v).order = { w.order with status := v } := by
  unfold World.set_status
  split_ifs <;> rfl

theorem change_status_order (w : World) (v : OStatus) :
    (w.change_status v).order =
      { w.order with status := v,
                     history := w.order.history ++ [(w.order.status, v)] } := by
  simp only [World.change_status, set_status_order]

theorem change_status_status (w : World) (v : OStatus) :
    (w.change_status v).order.status = v := by
  rw [change_status_order]

theorem change_status_payments (w : World) (v : OStatus) :
    (w.change_status v).order.payments = w.order.payments := by
  rw [change_status_order]

theorem change_status_total (w : World) (v : OStatus) :
    (w.change_status v).order.total_amount = w.order.total_amount := by
  rw [change_status_order]

theorem change_status_history (w : World) (v : OStatus) :
    (w.change_status v).order.history = w.order.history ++ [(w.order.status, v)] := by
  rw [change_status_order]

theorem change_status_get_total_paid (w : World) (v : OStatus) :
    (w.change_status v).order.get_total_paid = w.order.get_total_paid := by
  unfold OrderW.get_total_paid
  rw [change_status_payments]

theorem change_status_inv (w : World) (v : OStatus) :
    (w.change_status v).inv = (w.set_status v).inv := rfl

theorem setInv_self (m : Nat → Inventory) (pid : Nat) (v : Inventory) :
    setInv m pid v pid = v := by
  simp [setInv]

theorem setInv_ne (m : Nat → Inventory) (pid p : Nat) (v : Inventory) (h : p ≠ pid) :
    setInv m pid v p = m p := by
  simp [setInv, h]

theorem sumQ_cons_self (it : Item) (rest : List Item) :
    sumQ (it :: rest) it.product_id = it.quantity + sumQ rest it.product_id := by
  simp [sumQ]

theorem sumQ_cons_ne (it : Item) (rest : List Item) (p : Nat) (h : it.product_id ≠ p) :
    sumQ (it :: rest) p = sumQ rest p := by
  simp [sumQ, h]

theorem sumQ_nonneg (items : List Item) (p : Nat) :
    (∀ it ∈ items, 0 ≤ it.quantity) → 0 ≤ sumQ items p := by
  induction items with
  | nil =>
    intro _
    simp [sumQ]
  | cons it rest ih =>
    intro h
    have h1 := h it (List.mem_cons_self _ _)
    have h2 := ih (fun x hx => h x (List.mem_cons_of_mem _ hx))
    simp only [sumQ]
    split <;> omega

theorem releaseReservations_not_mem (items : List Item) :
    ∀ (m : Nat → Inventory) (p : Nat),
      p ∉ items.map (fun it => it.product_id) →
      releaseReservations m items p = m p := by
  induction items with
  | nil =>
    intro m p _
    rfl
  | cons it rest ih =>
    intro m p hp
    simp only [List.map_cons, List.mem_cons, not_or] at hp
    show releaseReservations
        (setInv m it.product_id ((m it.product_id).release_reservation it.quantity)) rest p = m p
    rw [ih _ _ (by simpa using hp.2)]
    simp only [setInv]
    rw [if_neg hp.1]

theorem releaseReservations_to_zero (items : List Item) :
    ∀ (m : Nat → Inventory) (p : Nat),
      0 ≤ (m p).reserved_quantity →
      (m p).reserved_quantity ≤ sumQ items p →
      (∀ it ∈ items, 0 ≤ it.quantity) →
      ((releaseReservations m items) p).reserved_quantity = 0 := by
  induction items with
  | nil =>
    intro m p h0 hle _
    simp only [sumQ] at hle
    show (m p).reserved_quantity = 0
    omega
  | cons it rest ih =>
    intro m p h0 hle hq
    have hqit : 0 ≤ it.quantity := hq it (List.mem_cons_self _ _)
    have hq' : ∀ x ∈ rest, 0 ≤ x.quantity := fun x hx => hq x (List.mem_cons_of_mem _ hx)
    have hsr : 0 ≤ sumQ rest p := sumQ_nonneg rest p hq'
    show ((releaseReservations
        (setInv m it.product_id ((m it.product_id).release_reservation it.quantity))
        rest) p).reserved_quantity = 0
    by_cases hpe : it.product_id = p
    · subst hpe
      have e : (setInv m it.product_id
            ((m it.product_id).release_reservation it.quantity)) it.product_id
          = (m it.product_id).release_reservation it.quantity := by
        simp [setInv]
      have hle' : (m it.product_id).reserved_quantity ≤ it.quantity + sumQ rest it.product_id := by
        rw [sumQ_cons_self] at hle
        exact hle
      apply ih
      · rw [e]
        dsimp [Inventory.release_reservation]
        omega
      · rw [e]
        dsimp [Inventory.release_reservation]
        omega
      · exact hq'
    · have e : (setInv m it.product_id
            ((m it.product_id).release_reservation it.quantity)) p = m p := by
        simp only [setInv]
        rw [if_neg (fun h => hpe h.symm)]
      have hle' : (m p).reserved_quantity ≤ sumQ rest p := by
        rw [sumQ_cons_ne _ _ _ hpe] at hle
        exact hle
      apply ih
      · rw [e]
        exact h0
      · rw [e]
        exact hle'
      · exact hq'

theorem c2_aux (m0 : Nat → Inventory) (allItems : List Item)
    (hqa : ∀ it ∈ allItems, 0 ≤ it.quantity) :
    ∀ (rest : List Item) (m : Nat → Inventory),
      (∀ it ∈ rest, it ∈ allItems) →
      (∀ p, (m0 p).reserved_quantity ≤ (m p).reserved_quantity) →
      (∀ p, (m p).reserved_quantity
          ≤ (m0 p).reserved_quantity + sumQ allItems p - sumQ rest p) →
      (∀ p, p ∉ allItems.map (fun it => it.product_id) → m p = m0 p) →
      (reserveInventoryAux allItems m rest).2 = false →
      (∀ it ∈ allItems, (m0 it.product_id).reserved_quantity = 0 →
        ((reserveInventoryAux allItems m rest).1 it.product_id).reserved_quantity = 0) ∧
      (∀ p, p ∉ allItems.map (fun it => it.product_id) →
        (reserveInventoryAux allItems m rest).1 p = m0 p) := by
  intro rest
  induction rest with
  | nil =>
    intro m _ _ _ _ hfail
    simp [reserveInventoryAux] at hfail
  | cons it rest ih =>
    intro m hsub hlow hup huntouched hfail
    have hitall : it ∈ allItems := hsub it (List.mem_cons_self _ _)
    have hqit : 0 ≤ it.quantity := hqa it hitall
    simp only [reserveInventoryAux] at hfail ⊢
    by_cases hr : ((m it.product_id).reserve it.quantity).2 = true
    · rw [if_pos hr] at hfail ⊢
      have hc : (m it.product_id).can_reserve it.quantity = true := by
        by_contra hcf
        unfold Inventory.reserve at hr
        rw [if_neg hcf] at hr
        exact Bool.false_ne_true hr
      have hres : ((m it.product_id).reserve it.quantity).1
          = { quantity := (m it.product_id).quantity,
              reserved_quantity := (m it.product_id).reserved_quantity + it.quantity } := by
        unfold Inventory.reserve
        rw [if_pos hc]
      rw [hres] at hfail ⊢
      refine ih _ (fun x hx => hsub x (List.mem_cons_of_mem _ hx)) ?_ ?_ ?_ hfail
      · intro p
        by_cases hpe : p = it.product_id
        · subst hpe
          have := hlow it.product_id
          rw [setInv_self]
          dsimp
          omega
        · rw [setInv_ne _ _ _ _ hpe]
          exact hlow p
      · intro p
        by_cases hpe : p = it.product_id
        · subst hpe
          have h1 := hup it.product_id
          rw [sumQ_cons_self] at h1
          rw [setInv_self]
          dsimp
          omega
        · have h1 := hup p
          rw [sumQ_cons_ne _ _ _ (fun h => hpe (Eq.symm h))] at h1
          rw [setInv_ne _ _ _ _ hpe]
          omega
      · intro p hp
        have hne : p ≠ it.product_id := by
          intro he
          exact hp (by rw [he]; exact List.mem_map_of_mem _ hitall)
        rw [setInv_ne _ _ _ _ hne]
        exact huntouched p hp
    · rw [if_neg hr] at hfail ⊢
      refine ⟨?_, ?_⟩
      · intro jt hjt hj0
        dsimp only
        have h2 := hup jt.product_id
        have h3 : 0 ≤ sumQ (it :: rest) jt.product_id :=
          sumQ_nonneg _ _ (fun x hx => hqa x (hsub x hx))
        have h4 := hlow jt.product_id
        apply releaseReservations_to_zero
        · omega
        · omega
        · exact hqa
      · intro p hp
        dsimp only
        rw [releaseReservations_not_mem allItems m p hp]
        exact huntouched p hp

/-- C10: for every inventory record, including one where reserved_quantity exceeds
quantity, available_quantity equals max(0, quantity - reserved_quantity), is never
negative, and can_reserve q holds exactly when q is at most this clamped value. -/
theorem c10_available_clamped (inv : Inventory) (q : Int) :
    inv.available_quantity = max 0 (inv.quantity - inv.reserved_quantity) ∧
    0 ≤ inv.available_quantity ∧
    (inv.can_reserve q = true ↔ q ≤ inv.available_quantity) := by
  refine ⟨rfl, le_max_left _ _, ?_⟩
  simp [Inventory.can_reserve, ge_iff_le]

/-- C8: for every total amount (and percentage in the checkout variant), both
deposit splits return (deposit, remaining) with deposit + remaining equal to the
total exactly, the remaining amount being the subtraction from the total. -/
theorem c8_deposit_split_exact (a pct : Rat) :
    (calculate_partial_payment a).1 + (calculate_partial_payment a).2 = a ∧
    (checkout_deposit_split a pct).1 + (checkout_deposit_split a pct).2 = a := by
  constructor <;> simp [calculate_partial_payment, checkout_deposit_split]

/-- C1 counterexample: (quantity 1, reserved 1) satisfies the invariant, but the
listed operation reduce_stock 1 produces (quantity 0, reserved 1), violating
reserved_quantity <= quantity, so the invariant is not preserved by arbitrary
sequences of the five listed operations. -/
theorem c1_counterexample :
    inventoryInvariant { quantity := 1, reserved_quantity := 1 } ∧
    ¬ inventoryInvariant
        (applyInvOps { quantity := 1, reserved_quantity := 1 } [InvOp.reduceStock 1]) := by
  decide

theorem c1_step (inv : Inventory) (op : InvOp) (h : inventoryInvariant inv)
    (hq : 0 ≤ op.qty) (hnr : op.isBareReduceStock = false) :
    inventoryInvariant (applyInvOp inv op) := by
  obtain ⟨h1, h2⟩ := h
  unfold inventoryInvariant
  cases op with
  | reserve q =>
    simp only [InvOp.qty] at hq
    simp only [applyInvOp, Inventory.reserve]
    split
    · rename_i hc
      simp only [Inventory.can_reserve, Inventory.available_quantity, ge_iff_le,
        decide_eq_true_eq] at hc
      refine ⟨?_, ?_⟩ <;> (dsimp; omega)
    · exact ⟨h1, h2⟩
  | release q =>
    simp only [InvOp.qty] at hq
    simp only [applyInvOp, Inventory.release_reservation]
    refine ⟨?_, ?_⟩ <;> (dsimp; omega)
  | reduceStock q => simp [InvOp.isBareReduceStock] at hnr
  | addStock q =>
    simp only [InvOp.qty] at hq
    simp only [applyInvOp, Inventory.add_stock]
    refine ⟨?_, ?_⟩ <;> (dsimp; omega)
  | reserveValidated q =>
    simp only [InvOp.qty] at hq
    simp only [applyInvOp, Inventory.reserveValidated]
    split
    · exact ⟨h1, h2⟩
    · rename_i hc
      simp only [Inventory.available_quantity, not_lt] at hc
      refine ⟨?_, ?_⟩ <;> (dsimp; omega)
  | fulfillItem q =>
    simp only [InvOp.qty] at hq
    simp only [applyInvOp, Inventory.release_reservation, Inventory.reduce_stock]
    split
    · refine ⟨?_, ?_⟩ <;> (dsimp; omega)
    · refine ⟨?_, ?_⟩ <;> (dsimp; omega)

/-- C1 amended: starting from 0 <= reserved_quantity <= quantity, the invariant is
preserved by every sequence of reserve, release_reservation, add_stock, the order
service's reservation of validated cart items, and the release-then-reduce pairing
used at fulfillment, each invoked with a nonnegative quantity; a bare reduce_stock
is excluded, since it checks only quantity and can leave reserved_quantity above
quantity. -/
theorem c1_amended_invariant_preserved (inv : Inventory) (ops : List InvOp)
    (h : inventoryInvariant inv)
    (hops : ∀ op ∈ ops, 0 ≤ op.qty ∧ op.isBareReduceStock = false) :
    inventoryInvariant (applyInvOps inv ops) := by
  induction ops generalizing inv with
  | nil => exact h
  | cons op rest ih =>
    have hop := hops op (List.mem_cons_self _ _)
    exact ih (applyInvOp inv op) (c1_step inv op h hop.1 hop.2)
      (fun o ho => hops o (List.mem_cons_of_mem _ ho))

/-- C1 witness: a concrete mixed sequence of the safe operations keeps the
invariant from the state (quantity 5, reserved 0). -/
theorem c1_amended_witness :
    inventoryInvariant (applyInvOps { quantity := 5, reserved_quantity := 0 }
      [InvOp.reserve 3, InvOp.release 1, InvOp.addStock 2,
       InvOp.reserveValidated 2, InvOp.fulfillItem 4]) :=
  c1_amended_invariant_preserved _ _ (by decide) (by decide)

/-- C2 counterexample: Order.reserve_inventory at a concrete input. Items:
product 0 quantity 1, product 1 quantity 2; inventory: product 0 (quantity 1,
reserved 0), product 1 (quantity 1, reserved 1 held by another order). The second
item fails and the call returns failure as claimed, but the rollback releases
product 1 as well though it was never reserved by this call, leaving its
reserved_quantity 0 instead of the pre-call 1 - so reserved_quantity does not
equal its value before the call. -/
theorem c2_rollback_over_release :
    let m : Nat → Inventory := fun n =>
      if n = 0 then { quantity := 1, reserved_quantity := 0 }
      else if n = 1 then { quantity := 1, reserved_quantity := 1 }
      else { quantity := 0, reserved_quantity := 0 }
    let items : List Item :=
      [{ product_id := 0, quantity := 1 }, { product_id := 1, quantity := 2 }]
    (reserveInventory m items).2 = false ∧
    ((reserveInventory m items).1 1).reserved_quantity = 0 ∧
    (m 1).reserved_quantity = 1 := by
  decide

/-- C2 amended: when reservation fails for any item, the call returns an error,
and the rollback releases every item's quantity (floored at zero) rather than
undoing only the reservations it made; this restores each product's
reserved_quantity to its pre-call value exactly when no ordered product carries a
pre-existing reservation: for nonnegative item quantities and pre-call
reserved_quantity 0 on every ordered product, a failed call leaves every ordered
product's reserved_quantity at 0 (its pre-call value) and every other product's
inventory row untouched. -/
theorem c2_amended_rollback (m : Nat → Inventory) (items : List Item)
    (hq : ∀ it ∈ items, 0 ≤ it.quantity)
    (h0 : ∀ it ∈ items, (m it.product_id).reserved_quantity = 0)
    (hfail : (reserveInventory m items).2 = false) :
    (∀ it ∈ items, ((reserveInventory m items).1 it.product_id).reserved_quantity = 0) ∧
    (∀ p, p ∉ items.map (fun it => it.product_id) →
      (reserveInventory m items).1 p = m p) := by
  have h := c2_aux m items hq items m (fun _ hx => hx) (fun _ => le_refl _)
    (fun p => by omega) (fun _ _ => rfl) hfail
  exact ⟨fun it hit => h.1 it hit (h0 it hit), h.2⟩

/-- C2 witness: two items on products 0 and 1 with no pre-existing reservations
(stock 1 each); the request for 2 units of product 1 fails and the rollback
leaves product 1's reserved_quantity at its pre-call value 0. -/
theorem c2_amended_witness :
    ((reserveInventory
        (fun n =>
          if n = 0 then { quantity := 1, reserved_quantity := 0 }
          else if n = 1 then { quantity := 1, reserved_quantity := 0 }
          else { quantity := 0, reserved_quantity := 0 })
        [{ product_id := 0, quantity := 1 }, { product_id := 1, quantity := 2 }]).1
      1).reserved_quantity = 0 :=
  (c2_amended_rollback
    (fun n =>
      if n = 0 then { quantity := 1, reserved_quantity := 0 }
      else if n = 1 then { quantity := 1, reserved_quantity := 0 }
      else { quantity := 0, reserved_quantity := 0 })
    [{ product_id := 0, quantity := 1 }, { product_id := 1, quantity := 2 }]
    (by decide) (by decide) (by decide)).1
    { product_id := 1, quantity := 2 } (by decide)

/-- C5 counterexample: the pending to partially_paid transition at a concrete
input: order pending with one item of quantity 2 already reserved at checkout
(inventory quantity 10, reserved 2), deposit 30000 covered by a successful
payment. The status listener runs Order.reserve_inventory again and
reserved_quantity becomes 4, so the transition does not leave inventory
unchanged as the claim states. -/
theorem c5_double_reservation :
    let w : World :=
      { order := { status := OStatus.pending, total_amount := 100000,
                   deposit_amount := 30000,
                   items := [{ product_id := 0, quantity := 2 }],
                   payments := [{ amount := 30000, status := PStatus.success,
                                  gateway := Gateway.orange_money,
                                  gateway_payment_id := 7 }],
                   history := [] },
        inv := fun _ => { quantity := 10, reserved_quantity := 2 } }
    (update_order_payment_status w).order.status = OStatus.partially_paid ∧
    ((update_order_payment_status w).inv 0).reserved_quantity = 4 ∧
    (w.inv 0).reserved_quantity = 2 := by
  refine ⟨?_, ?_, rfl⟩ <;>
    simp [update_order_payment_status, OrderW.get_total_paid, World.change_status,
      World.set_status, reserveInventory, reserveInventoryAux, Inventory.reserve,
      Inventory.can_reserve, Inventory.available_quantity, setInv, releaseReservations]

/-- C5 amended: the pending to partially_paid transition does not leave inventory
unchanged: the status listener runs Order.reserve_inventory again, so for a
single-item order whose product still has enough availability the product's
reserved_quantity increases by the item quantity a second time (the same items
are reserved twice); the stock quantity and every other product's row are
unchanged, the status becomes partially_paid and one history row is appended. -/
theorem c5_amended_rereserve (pid : Nat) (q Q r : Int) (ta da : Rat)
    (ps : List Pay) (hist : List (OStatus × OStatus)) (base : Nat → Inventory)
    (hcan : Inventory.can_reserve { quantity := Q, reserved_quantity := r } q = true) :
    let w : World :=
      { order := { status := OStatus.pending, total_amount := ta, deposit_amount := da,
                   items := [{ product_id := pid, quantity := q }],
                   payments := ps, history := hist },
        inv := setInv base pid { quantity := Q, reserved_quantity := r } }
    (w.change_status OStatus.partially_paid).order.status = OStatus.partially_paid ∧
    (w.change_status OStatus.partially_paid).order.history
      = hist ++ [(OStatus.pending, OStatus.partially_paid)] ∧
    ((w.change_status OStatus.partially_paid).inv pid).reserved_quantity = r + q ∧
    ((w.change_status OStatus.partially_paid).inv pid).quantity = Q ∧
    (∀ p, p ≠ pid → (w.change_status OStatus.partially_paid).inv p = base p) := by
  intro w
  have einvp : (w.change_status OStatus.partially_paid).inv pid
      = { quantity := Q, reserved_quantity := r + q } := by
    rw [change_status_inv]
    simp [World.set_status, reserveInventory, reserveInventoryAux, Inventory.reserve,
      setInv, hcan]
  have einvo : ∀ p, p ≠ pid → (w.change_status OStatus.partially_paid).inv p = base p := by
    intro p hp
    rw [change_status_inv]
    simp [World.set_status, reserveInventory, reserveInventoryAux, Inventory.reserve,
      setInv, hcan, hp]
  refine ⟨change_status_status _ _, ?_, ?_, ?_, ?_⟩
  · rw [change_status_history]
  · rw [einvp]
  · rw [einvp]
  · exact einvo

/-- C5 witness: the counterexample world through the amended theorem - with stock
10 and reserved 2 the listener re-reserves the 2 already-reserved units, ending
at reserved 2 + 2. -/
theorem c5_amended_witness :
    ((World.change_status
        { order := { status := OStatus.pending, total_amount := 100000,
                     deposit_amount := 30000,
                     items := [{ product_id := 0, quantity := 2 }],
                     payments := [], history := [] },
          inv := setInv (fun _ => { quantity := 0, reserved_quantity := 0 }) 0
                   { quantity := 10, reserved_quantity := 2 } }
        OStatus.partially_paid).inv 0).reserved_quantity = 2 + 2 :=
  (c5_amended_rereserve 0 2 10 2 100000 30000 [] []
    (fun _ => { quantity := 0, reserved_quantity := 0 }) (by decide)).2.2.1

/-- C3 counterexample: a pending order with total 100000 and deposit 30000 whose
cumulative successful payments are 100000 (at least the total) is moved to
partially_paid by the handler, not to paid_full as the claim states. -/
theorem c3_counterexample :
    let w : World :=
      { order := { status := OStatus.pending, total_amount := 100000,
                   deposit_amount := 30000, items := [],
                   payments := [{ amount := 100000, status := PStatus.success,
                                  gateway := Gateway.stripe, gateway_payment_id := 1 }],
                   history := [] },
        inv := fun _ => { quantity := 0, reserved_quantity := 0 } }
    (update_order_payment_status w).order.status = OStatus.partially_paid ∧
    (update_order_payment_status w).order.status ≠ OStatus.paid_full := by
  constructor <;>
    norm_num [update_order_payment_status, OrderW.get_total_paid, World.change_status,
      World.set_status] <;> decide

/-- C3 amended: the mobile-money webhook handler updates only the Payment and
never touches the order status or history; the confirm-path handler
update_order_payment_status sets partially_paid whenever cumulative successful
payments reach the deposit and the order is pending (even when they reach the
total), and sets paid_full only when they reach the total and the order is not
pending. -/
theorem c3_amended_payment_status (w : World) (tid : Nat) (s : String) :
    ((orange_money_webhook w tid s).order.status = w.order.status ∧
     (orange_money_webhook w tid s).order.history = w.order.history) ∧
    (w.order.get_total_paid ≥ w.order.deposit_amount → w.order.status = OStatus.pending →
      (update_order_payment_status w).order.status = OStatus.partially_paid) ∧
    (w.order.get_total_paid ≥ w.order.total_amount → w.order.status ≠ OStatus.pending →
      (update_order_payment_status w).order.status = OStatus.paid_full) := by
  refine ⟨?_, ?_, ?_⟩
  · unfold orange_money_webhook
    constructor
    · split
      · rfl
      · split
        · rfl
        · simp [setPayment]
    · split
      · rfl
      · split
        · rfl
        · simp [setPayment]
  · intro h1 h2
    simp only [update_order_payment_status]
    rw [if_pos ⟨h1, h2⟩]
    exact change_status_status w OStatus.partially_paid
  · intro h1 h2
    simp only [update_order_payment_status]
    rw [if_neg (fun hc => h2 hc.2), if_pos h1]
    exact change_status_status w OStatus.paid_full

/-- C3 witness: a pending order with deposit 30000 covered by one successful
payment of 30000 is moved to partially_paid. -/
theorem c3_amended_witness :
    (update_order_payment_status
      { order := { status := OStatus.pending, total_amount := 100000,
                   deposit_amount := 30000, items := [],
                   payments := [{ amount := 30000, status := PStatus.success,
                                  gateway := Gateway.orange_money,
                                  gateway_payment_id := 1 }],
                   history := [] },
        inv := fun _ => { quantity := 0, reserved_quantity := 0 } }).order.status
      = OStatus.partially_paid :=
  (c3_amended_payment_status _ 1 "success").2.1 (by simp [OrderW.get_total_paid]) rfl

/-- C6 counterexample: at the service layer, calling update_order_status twice
with confirmed from a pending order makes the second call report failure, not a
no-op success; at the model layer, calling Order.change_status twice with
processing appends two history rows, not one. -/
theorem c6_counterexample :
    (let sw : SWorld :=
      { order := { status := SStatus.pending, items := [], history := [] },
        inv := fun _ => { quantity := 0, reserved_quantity := 0 } }
     (service_update_order_status
        (service_update_order_status sw SStatus.confirmed).1 SStatus.confirmed).2 = false) ∧
    (let w : World :=
      { order := { status := OStatus.pending, total_amount := 0, deposit_amount := 0,
                   items := [], payments := [], history := [] },
        inv := fun _ => { quantity := 0, reserved_quantity := 0 } }
     ((w.change_status OStatus.processing).change_status
        OStatus.processing).order.history.length = 2) := by
  constructor <;> decide

/-- C6 amended: repeating a ChangeStatus call produces one history row in total
at the service layer, but the second call is rejected by the transition table
(same-status transitions are never allowed) and reports failure rather than a
no-op success; the model-level Order.change_status instead succeeds twice and
appends a history row each time, two in total. -/
theorem c6_amended_idempotent_status (sw : SWorld) (s : SStatus) (w : World) (t : OStatus)
    (h1 : (service_update_order_status sw s).2 = true) :
    service_update_order_status (service_update_order_status sw s).1 s
      = ((service_update_order_status sw s).1, false) ∧
    (service_update_order_status sw s).1.order.history.length
      = sw.order.history.length + 1 ∧
    ((w.change_status t).change_status t).order.history.length
      = w.order.history.length + 2 := by
  have hss : ∀ u : SStatus, isValidStatusTransition u u = false := by decide
  by_cases hv : isValidStatusTransition sw.order.status s = true
  · refine ⟨?_, ?_, ?_⟩
    · simp only [service_update_order_status, hv, if_true]
      simp [hss s]
    · simp only [service_update_order_status, hv, if_true]
      simp
    · simp [change_status_history, change_status_order]
  · exfalso
    simp only [service_update_order_status, hv] at h1
    rw [if_neg] at h1
    · exact Bool.false_ne_true h1
    · simp [hv]

/-- C6 witness: from a pending service order, a confirmed call succeeds once and
the identical second call is rejected as a failure without a second history row. -/
theorem c6_amended_witness :
    service_update_order_status
        (service_update_order_status
          { order := { status := SStatus.pending, items := [], history := [] },
            inv := fun _ => { quantity := 0, reserved_quantity := 0 } }
          SStatus.confirmed).1 SStatus.confirmed
      = ((service_update_order_status
          { order := { status := SStatus.pending, items := [], history := [] },
            inv := fun _ => { quantity := 0, reserved_quantity := 0 } }
          SStatus.confirmed).1, false) :=
  (c6_amended_idempotent_status
    { order := { status := SStatus.pending, items := [], history := [] },
      inv := fun _ => { quantity := 0, reserved_quantity := 0 } }
    SStatus.confirmed
    { order := { status := OStatus.pending, total_amount := 0, deposit_amount := 0,
                 items := [], payments := [], history := [] },
      inv := fun _ => { quantity := 0, reserved_quantity := 0 } }
    OStatus.processing (by decide)).1

/-- C9 counterexample: a mobile-money payment request without a phone number on a
payable order is rejected with the missing-phone error, yet exactly one Payment
row has been persisted by the call. -/
theorem c9_counterexample :
    let o : OrderW := { status := OStatus.pending, total_amount := 1000,
                        deposit_amount := 300, items := [], payments := [],
                        history := [] }
    let req : PaymentCreateRequest := { amount := 300, gateway := Gateway.orange_money,
                                        customer_phone := none }
    (create_payment o [] req).2 = CreatePaymentOutcome.missingPhone ∧
    (create_payment o [] req).1.length = 1 := by
  constructor <;>
    norm_num [create_payment, OrderW.get_remaining_balance, OrderW.get_total_paid] <;>
    decide

/-- C9 amended: for a payable order and an amount within the remaining balance, a
mobile-money request without a phone number fails with the missing-phone error,
but only after the Payment row (status initiated) has already been persisted: the
database gains the row even though the request is rejected. -/
theorem c9_amended_phone_check (o : OrderW) (db : List PaymentRow)
    (req : PaymentCreateRequest)
    (ho : ¬(o.status = OStatus.cancelled ∨ o.status = OStatus.refunded ∨
            o.status = OStatus.completed))
    (ha : ¬ req.amount > o.get_remaining_balance)
    (hg : req.gateway = Gateway.orange_money ∨ req.gateway = Gateway.mtn_mobile_money)
    (hp : req.customer_phone = none) :
    create_payment o db req =
      (db ++ [{ gateway := req.gateway, amount := req.amount,
                customer_phone := req.customer_phone, status := PStatus.initiated }],
       CreatePaymentOutcome.missingPhone) := by
  obtain ⟨amt, gw, ph⟩ := req
  dsimp only at hg hp ⊢
  subst hp
  rcases hg with hg | hg <;> subst hg <;> simp [create_payment, ho, ha]

/-- C9 witness: a pending order with total 1000 and no payments, and an orange
money request of 1000 without a phone: the call rejects with missing phone but
the initiated Payment row is persisted. -/
theorem c9_amended_witness :
    create_payment
      { status := OStatus.pending, total_amount := 1000, deposit_amount := 300,
        items := [], payments := [], history := [] }
      []
      { amount := 1000, gateway := Gateway.orange_money, customer_phone := none }
      = ([{ gateway := Gateway.orange_money, amount := 1000,
            customer_phone := none, status := PStatus.initiated }],
         CreatePaymentOutcome.missingPhone) :=
  c9_amended_phone_check _ _ _ (by decide)
    (by simp [OrderW.get_remaining_balance, OrderW.get_total_paid])
    (Or.inl rfl) rfl

theorem upops_payments (x : World) :
    (update_order_payment_status x).order.payments = x.order.payments := by
  simp only [update_order_payment_status]
  split
  · exact change_status_payments _ _
  · split
    · exact change_status_payments _ _
    · rfl

theorem upops_total (x : World) :
    (update_order_payment_status x).order.total_amount = x.order.total_amount := by
  simp only [update_order_payment_status]
  split
  · exact change_status_total _ _
  · split
    · exact change_status_total _ _
    · rfl

theorem upops_get_total_paid (x : World) :
    (update_order_payment_status x).order.get_total_paid = x.order.get_total_paid := by
  simp only [update_order_payment_status]
  split
  · exact change_status_get_total_paid _ _
  · split
    · exact change_status_get_total_paid _ _
    · rfl

/-- C4 counterexample: an order in partially_paid holding 2 reserved units of
product 0 whose inventory row shows reserved 4 (2 held by another order): Cancel
succeeds and sets cancelled, but reserved_quantity drops from 4 to 0, a decrease
of 4 rather than exactly 2, because the reservation is released once by the
status listener and a second time by the endpoint. -/
theorem c4_counterexample :
    let w : World :=
      { order := { status := OStatus.partially_paid, total_amount := 0,
                   deposit_amount := 0,
                   items := [{ product_id := 0, quantity := 2 }],
                   payments := [], history := [] },
        inv := fun _ => { quantity := 10, reserved_quantity := 4 } }
    (cancel_order w).2 = true ∧
    (cancel_order w).1.order.status = OStatus.cancelled ∧
    ((cancel_order w).1.inv 0).reserved_quantity = 0 ∧
    (w.inv 0).reserved_quantity - ((cancel_order w).1.inv 0).reserved_quantity ≠ 2 := by
  decide

/-- C4 amended: Cancel succeeds exactly when the status is pending, partially_paid
or processing (in particular a paid_full order is not cancellable, although it is
neither terminal nor dispatched); on any other status it fails and changes
nothing; on success the status becomes cancelled and each item's quantity is
released twice (once by the status listener, once by the endpoint), each release
floored at zero, so a product holding reservation r with item quantity q ends at
max 0 (r - 2q) rather than r - q. -/
theorem c4_amended_cancel (st : OStatus) (pid : Nat) (q Q r : Int)
    (ta da : Rat) (ps : List Pay) (hist : List (OStatus × OStatus))
    (base : Nat → Inventory) (hq : 0 ≤ q) :
    let w : World :=
      { order := { status := st, total_amount := ta, deposit_amount := da,
                   items := [{ product_id := pid, quantity := q }],
                   payments := ps, history := hist },
        inv := setInv base pid { quantity := Q, reserved_quantity := r } }
    ((cancel_order w).2 = true ↔
      (st = OStatus.pending ∨ st = OStatus.partially_paid ∨ st = OStatus.processing)) ∧
    (¬(st = OStatus.pending ∨ st = OStatus.partially_paid ∨ st = OStatus.processing) →
      cancel_order w = (w, false)) ∧
    ((st = OStatus.pending ∨ st = OStatus.partially_paid ∨ st = OStatus.processing) →
      (cancel_order w).1.order.status = OStatus.cancelled ∧
      ((cancel_order w).1.inv pid).reserved_quantity = max 0 (r - 2 * q) ∧
      ((cancel_order w).1.inv pid).quantity = Q) := by
  intro w
  by_cases hc : st = OStatus.pending ∨ st = OStatus.partially_paid ∨ st = OStatus.processing
  · rcases hc with h | h | h <;> subst h <;>
      refine ⟨?_, fun hn => by simp at hn, fun _ => ⟨?_, ?_, ?_⟩⟩ <;>
      simp [cancel_order, OrderW.can_be_cancelled, World.change_status, World.set_status,
        releaseReservations, setInv, Inventory.release_reservation] <;>
      omega
  · have hb : w.order.can_be_cancelled = false := decide_eq_false hc
    refine ⟨?_, fun _ => ?_, fun h => absurd h hc⟩ <;>
      simp [cancel_order, hb, hc]

/-- C4 witness: cancelling a partially_paid single-item order (quantity 2) on an
inventory row with reserved 4 leaves reserved max 0 (4 - 2*2). -/
theorem c4_amended_witness :
    ((cancel_order
        { order := { status := OStatus.partially_paid, total_amount := 0,
                     deposit_amount := 0,
                     items := [{ product_id := 0, quantity := 2 }],
                     payments := [], history := [] },
          inv := setInv (fun _ => { quantity := 0, reserved_quantity := 0 }) 0
                   { quantity := 10, reserved_quantity := 4 } }).1.inv 0).reserved_quantity
      = max 0 (4 - 2 * 2) :=
  ((c4_amended_cancel OStatus.partially_paid 0 2 10 4 0 0 [] []
      (fun _ => { quantity := 0, reserved_quantity := 0 }) (by decide)).2.2
    (Or.inr (Or.inl rfl))).2.1

/-- C7 counterexample: a cancelled order with total 100 and a pending orange-money
payment of 100: confirming the payment marks it success, and the handler moves the
cancelled order to paid_full, so payment processing does change a cancelled
order's status. -/
theorem c7_counterexample :
    let w : World :=
      { order := { status := OStatus.cancelled, total_amount := 100,
                   deposit_amount := 30, items := [],
                   payments := [{ amount := 100, status := PStatus.pending,
                                  gateway := Gateway.orange_money,
                                  gateway_payment_id := 1 }],
                   history := [] },
        inv := fun _ => { quantity := 0, reserved_quantity := 0 } }
    (confirm_payment w 0).2 = true ∧
    ((confirm_payment w 0).1.order.payments[0]?.map Pay.status = some PStatus.success) ∧
    (confirm_payment w 0).1.order.status = OStatus.paid_full ∧
    (confirm_payment w 0).1.order.status ≠ OStatus.cancelled := by
  refine ⟨?_, ?_, ?_, ?_⟩ <;>
    norm_num [confirm_payment, confirm_payment_gateway, setPayment,
      update_order_payment_status, OrderW.get_total_paid, World.change_status,
      World.set_status] <;> decide

/-- C7 amended: confirming a pending mobile-money payment of a cancelled order
marks the Payment success and never yields partially_paid (that transition
requires a pending order); the order stays cancelled while cumulative successful
payments are below the total, but when they reach the total the handler moves
even the cancelled order to paid_full. -/
theorem c7_amended_cancelled_order (w : World) (i : Nat) (p : Pay)
    (hw : w.order.status = OStatus.cancelled)
    (hp : w.order.payments[i]? = some p)
    (hst : p.status = PStatus.pending)
    (hgw : confirm_payment_gateway p = true) :
    (confirm_payment w i).2 = true ∧
    (confirm_payment w i).1.order.payments[i]? =
      some { p with status := PStatus.success } ∧
    (confirm_payment w i).1.order.status ≠ OStatus.partially_paid ∧
    ((confirm_payment w i).1.order.get_total_paid <
        (confirm_payment w i).1.order.total_amount →
      (confirm_payment w i).1.order.status = OStatus.cancelled) ∧
    ((confirm_payment w i).1.order.get_total_paid ≥
        (confirm_payment w i).1.order.total_amount →
      (confirm_payment w i).1.order.status = OStatus.paid_full) := by
  have hi : i < w.order.payments.length := by
    by_contra hcon
    push_neg at hcon
    rw [List.getElem?_eq_none hcon] at hp
    cases hp
  have e : confirm_payment w i =
      (update_order_payment_status
        { w with order := setPayment w.order i { p with status := PStatus.success } },
       true) := by
    unfold confirm_payment
    rw [hp]
    dsimp only
    rw [if_neg (fun hne => hne hst), if_pos hgw]
  set x : World :=
    { w with order := setPayment w.order i { p with status := PStatus.success } } with hxdef
  have hx : x.order.status = OStatus.cancelled := hw
  have hnot1 : ¬(x.order.get_total_paid ≥ x.order.deposit_amount ∧
      x.order.status = OStatus.pending) :=
    fun hcc => absurd (hx.symm.trans hcc.2) (by decide)
  refine ⟨by rw [e], ?_, ?_, ?_, ?_⟩
  · rw [e]
    show (update_order_payment_status x).order.payments[i]? = _
    rw [upops_payments]
    exact List.getElem?_set_eq_of_lt _ hi
  · rw [e]
    show (update_order_payment_status x).order.status ≠ _
    simp only [update_order_payment_status]
    rw [if_neg hnot1]
    split
    · rw [change_status_status]
      decide
    · rw [hx]
      decide
  · rw [e]
    intro hlt
    rw [upops_get_total_paid, upops_total] at hlt
    show (update_order_payment_status x).order.status = _
    simp only [update_order_payment_status]
    rw [if_neg hnot1, if_neg (not_le.mpr hlt)]
    exact hx
  · rw [e]
    intro hge
    rw [upops_get_total_paid, upops_total] at hge
    show (update_order_payment_status x).order.status = _
    simp only [update_order_payment_status]
    rw [if_neg hnot1, if_pos hge]
    exact change_status_status _ _

/-- C7 witness: the cancelled order of the counterexample world, through the
amended theorem: confirming its pending payment reports success. -/
theorem c7_amended_witness :
    (confirm_payment
      { order := { status := OStatus.cancelled, total_amount := 100,
                   deposit_amount := 30, items := [],
                   payments := [{ amount := 100, status := PStatus.pending,
                                  gateway := Gateway.orange_money,
                                  gateway_payment_id := 2 }],
                   history := [] },
        inv := fun _ => { quantity := 0, reserved_quantity := 0 } } 0).2 = true :=
  (c7_amended_cancelled_order
    { order := { status := OStatus.cancelled, total_amount := 100,
                 deposit_amount := 30, items := [],
                 payments := [{ amount := 100, status := PStatus.pending,
                                gateway := Gateway.orange_money,
                                gateway_payment_id := 2 }],
                 history := [] },
      inv := fun _ => { quantity := 0, reserved_quantity := 0 } }
    0
    { amount := 100, status := PStatus.pending, gateway := Gateway.orange_money,
      gateway_payment_id := 2 }
    rfl rfl rfl (by decide)).1

end PromoWeb
